import Mathlib

/-!
Verification of the ArtCheck preview/metadata pipeline.

The definitions below are a shallow embedding of the core pipeline found in
src/app_with_embroidery.py (and the near-duplicate src/app_streamlit.py):
the color/swatch extractor, the format dispatcher, the embroidery renderer,
the ImageMagick conversion wrapper, the RGB to CMYK conversion and the
background selection of the post-processor.

Modelling conventions:
- Python floats are modelled as exact rationals (ℚ); machine integers as ℤ/ℕ.
- Python int(x) truncation and round(x) banker rounding are modelled by
  pyInt and pyRound below.
- Calls into external programs and libraries (subprocess, PIL pixel
  operations, pyembroidery parsing, the re module scanning raw bytes,
  colorgram) are modelled as explicit inputs or function parameters: the
  embedding covers everything the repository code itself computes after
  those calls return.
- Python exceptions that the code catches are modelled with Except inputs.
-/

/-- Truncation toward zero, the semantics of Python int() on a float;
matched numeric literals in the source are nonnegative, where this is ⌊q⌋. -/
def pyInt (q : ℚ) : ℤ := if q < 0 then -(⌊-q⌋) else ⌊q⌋

/-- Round-half-to-even, the semantics of Python round(q) with no digits. -/
def pyRound (q : ℚ) : ℤ :=
  if q - ⌊q⌋ > 1/2 then ⌊q⌋ + 1
  else if q - ⌊q⌋ < 1/2 then ⌊q⌋
  else if ⌊q⌋ % 2 = 0 then ⌊q⌋ else ⌊q⌋ + 1

/-- Python round(q, 2): round to two decimal places, half to even. -/
def round2 (q : ℚ) : ℚ := (pyRound (q * 100) : ℚ) / 100

/-- Lexicographic comparison of character lists by code point, the ordering
Python uses to compare strings with < and in sorted(). -/
def lexLeChars : List Char → List Char → Bool
  | [], _ => true
  | _ :: _, [] => false
  | a :: as, b :: bs =>
    if a.toNat < b.toNat then true
    else if b.toNat < a.toNat then false
    else lexLeChars as bs

/-- Python string comparison as a proposition, used by sorted() on strings. -/
def pyStrLe (a b : String) : Prop := lexLeChars a.data b.data = true

instance : DecidableRel pyStrLe := fun a b => by unfold pyStrLe; infer_instance

theorem lexLeChars_total : ∀ as bs, lexLeChars as bs = true ∨ lexLeChars bs as = true := by
  intro as
  induction as with
  | nil => intro bs; left; rfl
  | cons a as ih =>
    intro bs
    cases bs with
    | nil => right; rfl
    | cons b bs =>
      simp only [lexLeChars]
      rcases Nat.lt_trichotomy a.toNat b.toNat with h | h | h
      · left; simp [h]
      · have h2 : ¬ a.toNat < b.toNat := by omega
        have h3 : ¬ b.toNat < a.toNat := by omega
        simpa [h2, h3] using ih bs
      · right; simp [h, Nat.lt_asymm h]

theorem lexLeChars_trans : ∀ as bs cs, lexLeChars as bs = true → lexLeChars bs cs = true →
    lexLeChars as cs = true := by
  intro as
  induction as with
  | nil => intro bs cs _ _; rfl
  | cons a as ih =>
    intro bs cs hab hbc
    cases bs with
    | nil => simp [lexLeChars] at hab
    | cons b bs =>
      cases cs with
      | nil => simp [lexLeChars] at hbc
      | cons c cs =>
        simp only [lexLeChars] at hab hbc ⊢
        rcases Nat.lt_trichotomy a.toNat b.toNat with h1 | h1 | h1
        · rcases Nat.lt_trichotomy b.toNat c.toNat with h2 | h2 | h2
          · rw [if_pos (Nat.lt_trans h1 h2)]
          · rw [if_pos (h2 ▸ h1)]
          · rw [if_neg (Nat.lt_asymm h2), if_pos h2] at hbc; exact absurd hbc (by simp)
        · rw [if_neg (by omega), if_neg (by omega)] at hab
          rcases Nat.lt_trichotomy b.toNat c.toNat with h2 | h2 | h2
          · rw [if_pos (by omega)]
          · rw [if_neg (by omega), if_neg (by omega)] at hbc
            rw [if_neg (by omega), if_neg (by omega)]
            exact ih bs cs hab hbc
          · rw [if_neg (Nat.lt_asymm h2), if_pos h2] at hbc; exact absurd hbc (by simp)
        · rw [if_neg (Nat.lt_asymm h1), if_pos h1] at hab; exact absurd hab (by simp)

instance : IsTotal String pyStrLe := ⟨fun a b => lexLeChars_total a.data b.data⟩

instance : IsTrans String pyStrLe := ⟨fun a b c => lexLeChars_trans a.data b.data c.data⟩

/-- Does the character list start with the given pattern. -/
def charsStartWith : List Char → List Char → Bool
  | [], _ => true
  | _ :: _, [] => false
  | a :: as, b :: bs => a == b && charsStartWith as bs

/-- Substring test on character lists: Python's in operator on strings. -/
def containsSeq (pat : List Char) : List Char → Bool
  | [] => charsStartWith pat []
  | c :: rest => charsStartWith pat (c :: rest) || containsSeq pat rest

/-- Python str.upper() restricted to ASCII, as produced by the source regexes. -/
def pyUpper (s : String) : String := String.mk (s.data.map Char.toUpper)

/-- Python str.lower() restricted to ASCII. -/
def pyLower (s : String) : String := String.mk (s.data.map Char.toLower)

/-- Python str.strip() with no argument: drop surrounding whitespace. -/
def pyStrip (s : String) : String :=
  String.mk (((s.data.dropWhile Char.isWhitespace).reverse.dropWhile Char.isWhitespace).reverse)

/-- The name of a path: the part after the last slash, as in
pathlib PurePosixPath(s).name for the simple upload paths the app handles. -/
def pathName (s : String) : String :=
  String.mk ((s.data.reverse.takeWhile (fun c => c ≠ '/')).reverse)

/-- The extension of a path, as in pathlib Path(s).suffix: the part of the
name from its last dot, empty when the dot is absent, leading or trailing. -/
def pathSuffixOf (s : String) : String :=
  let name := pathName s
  let rev := name.data.reverse
  let after := rev.takeWhile (fun c => c ≠ '.')
  if after.length = rev.length then ""
  else if after.length = 0 then ""
  else if after.length + 1 = rev.length then ""
  else String.mk ('.' :: after.reverse)

/-! ### Format dispatcher (src/app_with_embroidery.py lines 60, 71-73, 160, 170-173) -/

/-- EmbroideryConverter.EMBROIDERY_FORMATS (line 60). -/
def EMBROIDERY_FORMATS : List String :=
  [".dst", ".pes", ".exp", ".jef", ".vp3", ".xxx", ".u01"]

/-- PreviewGenerator.SUPPORTED_FORMATS (line 160). -/
def SUPPORTED_FORMATS : List String :=
  [".ai", ".eps", ".pdf", ".svg", ".cdr", ".xcf"]

/-- EmbroideryConverter.is_embroidery_file (lines 71-73):
Path(filename).suffix.lower() in EMBROIDERY_FORMATS. -/
def is_embroidery_file (filename : String) : Bool :=
  decide (pyLower (pathSuffixOf filename) ∈ EMBROIDERY_FORMATS)

/-- PreviewGenerator.is_supported (lines 170-173): the lowercased suffix is a
supported vector format, or the file is an embroidery file. -/
def is_supported (filename : String) : Bool :=
  decide (pyLower (pathSuffixOf filename) ∈ SUPPORTED_FORMATS) || is_embroidery_file filename

/-! ### Color/swatch extractor (src/app_with_embroidery.py lines 313-518)

The Python re module runs over the latin-1 decoded file bytes; the embedding
takes the capture groups of every regex match as input lists and covers
everything the code computes from them: normalization, de-duplication,
sorting and capping. -/

/-- Normalized Pantone name built at lines 338 and 397: the f-string
joining "PANTONE ", the number and the upper-cased variant. -/
def pantone_name (number variant : String) : String :=
  "PANTONE " ++ number ++ " " ++ pyUpper variant

/-- _get_used_spot_colors_ghostscript (lines 313-346): the (number, variant)
capture groups of the PANTONE regex over the Ghostscript inkcov output are
normalized and de-duplicated through a set; a failed or match-free run gives
the empty list. -/
def gs_spot_colors (gsMatches : List (String × String)) : List String :=
  (gsMatches.map (fun p => pantone_name p.1 p.2)).dedup

/-- Pantone stage of extract_vector_colors (lines 375-400): when Ghostscript
found spot colors they are used, sorted; otherwise the textual pattern
matches are normalized, de-duplicated through a set and sorted. -/
def pantone_stage (gsMatches textMatches : List (String × String)) : List String :=
  let gs := gs_spot_colors gsMatches
  if gs = [] then
    List.insertionSort pyStrLe ((textMatches.map (fun p => pantone_name p.1 p.2)).dedup)
  else
    List.insertionSort pyStrLe gs

/-- Sort key order of the CMYK list (line 436): ascending lexicographic on
(k, c, m, y) where the stored tuple is (c, m, y, k). -/
def cmykLe (a b : ℤ × ℤ × ℤ × ℤ) : Prop :=
  a.2.2.2 < b.2.2.2 ∨ (a.2.2.2 = b.2.2.2 ∧ (a.1 < b.1 ∨ (a.1 = b.1 ∧
    (a.2.1 < b.2.1 ∨ (a.2.1 = b.2.1 ∧ a.2.2.1 ≤ b.2.2.1)))))

instance : DecidableRel cmykLe := fun a b => by unfold cmykLe; infer_instance

instance : IsTotal (ℤ × ℤ × ℤ × ℤ) cmykLe :=
  ⟨by intro a b; obtain ⟨a1, a2, a3, a4⟩ := a; obtain ⟨b1, b2, b3, b4⟩ := b
      unfold cmykLe; dsimp only; omega⟩

instance : IsTrans (ℤ × ℤ × ℤ × ℤ) cmykLe :=
  ⟨by intro a b c hab hbc; obtain ⟨a1, a2, a3, a4⟩ := a; obtain ⟨b1, b2, b3, b4⟩ := b
      obtain ⟨c1, c2, c3, c4⟩ := c; unfold cmykLe at *; dsimp only at *; omega⟩

/-- Value normalization of one matched CMYK quadruple (lines 419-429): when
the first (cyan) value is at most 1.0 every channel is scaled by 100,
otherwise every channel is truncated by int(). -/
def cmyk_normalize (c m y k : ℚ) : ℤ × ℤ × ℤ × ℤ :=
  if c ≤ 1 then (pyInt (c * 100), pyInt (m * 100), pyInt (y * 100), pyInt (k * 100))
  else (pyInt c, pyInt m, pyInt y, pyInt k)

/-- CMYK stage of extract_vector_colors (lines 402-436): normalize each
match, de-duplicate through a set, sort ascending by (k, c, m, y), cap at 15. -/
def cmyk_stage (ms : List (ℚ × ℚ × ℚ × ℚ)) : List (ℤ × ℤ × ℤ × ℤ) :=
  (List.insertionSort cmykLe
    ((ms.map (fun t => cmyk_normalize t.1 t.2.1 t.2.2.1 t.2.2.2)).dedup)).take 15

/-- Descending order on ℤ used for the grayscale list (line 465, reverse=True). -/
def grayGe (a b : ℤ) : Prop := b ≤ a

instance : DecidableRel grayGe := fun a b => by unfold grayGe; infer_instance

instance : IsTotal ℤ grayGe := ⟨fun a b => (le_total b a).imp id id⟩

instance : IsTrans ℤ grayGe := ⟨fun _ _ _ hab hbc => le_trans hbc hab⟩

/-- Value normalization of one matched gray value (lines 457-461). -/
def gray_normalize (g : ℚ) : ℤ :=
  if g ≤ 1 then pyInt (g * 100) else pyInt g

/-- Grayscale stage of extract_vector_colors (lines 438-465): a detected
"White" swatch name forces 100 into the set; matched gray operator values are
normalized; the set is sorted descending (white first) and capped at 10. -/
def gray_stage (whiteSwatch : Bool) (ms : List ℚ) : List ℤ :=
  let base := (if whiteSwatch then [(100 : ℤ)] else []) ++ ms.map gray_normalize
  (List.insertionSort grayGe base.dedup).take 10

/-- Default ascending order on RGB triples used by sorted() (line 495). -/
def rgbLe (a b : ℤ × ℤ × ℤ) : Prop :=
  a.1 < b.1 ∨ (a.1 = b.1 ∧ (a.2.1 < b.2.1 ∨ (a.2.1 = b.2.1 ∧ a.2.2 ≤ b.2.2)))

instance : DecidableRel rgbLe := fun a b => by unfold rgbLe; infer_instance

instance : IsTotal (ℤ × ℤ × ℤ) rgbLe :=
  ⟨by intro a b; obtain ⟨a1, a2, a3⟩ := a; obtain ⟨b1, b2, b3⟩ := b
      unfold rgbLe; dsimp only; omega⟩

instance : IsTrans (ℤ × ℤ × ℤ) rgbLe :=
  ⟨by intro a b c hab hbc; obtain ⟨a1, a2, a3⟩ := a; obtain ⟨b1, b2, b3⟩ := b
      obtain ⟨c1, c2, c3⟩ := c; unfold rgbLe at *; dsimp only at *; omega⟩

/-- Value normalization of one matched RGB triple (lines 482-490): when the
first (red) value is at most 1.0 every channel is scaled by 255, otherwise
every channel is truncated by int(). -/
def rgb_normalize (r g b : ℚ) : ℤ × ℤ × ℤ :=
  if r ≤ 1 then (pyInt (r * 255), pyInt (g * 255), pyInt (b * 255))
  else (pyInt r, pyInt g, pyInt b)

/-- RGB stage of extract_vector_colors (lines 467-495): normalize each match,
de-duplicate through a set, sort ascending, cap at 15. -/
def rgb_stage (ms : List (ℚ × ℚ × ℚ)) : List (ℤ × ℤ × ℤ) :=
  (List.insertionSort rgbLe
    ((ms.map (fun t => rgb_normalize t.1 t.2.1 t.2.2)).dedup)).take 15

/-- Other-spot-color stage of extract_vector_colors (lines 497-508): strip the
matched separation names, keep those not containing the PANTONE marker,
de-duplicate through a set (iteration order of the Python set is settled by
dedup order here; the spec leaves it undefined) and cap at 5. -/
def spot_stage (separationNames : List String) : List String :=
  (((separationNames.map pyStrip).filter
    (fun n => !(containsSeq "PANTONE".data (pyUpper n).data))).dedup).take 5

/-- The capture groups of every regex match performed by
extract_vector_colors over the decoded file text, plus the Ghostscript
matches; the regex engine itself is external to the repository code. -/
structure ScanMatches where
  gsPantone : List (String × String)
  textPantone : List (String × String)
  cmyk : List (ℚ × ℚ × ℚ × ℚ)
  whiteSwatch : Bool
  gray : List ℚ
  rgb : List (ℚ × ℚ × ℚ)
  separation : List String
deriving DecidableEq

/-- The colors_found dictionary of extract_vector_colors (lines 357-363). -/
structure ColorsFound where
  pantone : List String
  cmyk : List (ℤ × ℤ × ℤ × ℤ)
  rgb : List (ℤ × ℤ × ℤ)
  grayscale : List ℤ
  spot_other : List String
deriving DecidableEq

/-- extract_vector_colors (lines 348-518). Unsupported extensions return
none at once; a failed file read or any unexpected exception during the scan
(the except branches at lines 370-371 and 516-518) is the error case of the
scan input and returns none; otherwise the five stages run and a result in
which every list is empty is reported as none (lines 510-512). -/
def extract_vector_colors (file_path : String) (scan : Except String ScanMatches) :
    Option ColorsFound :=
  if pyLower (pathSuffixOf file_path) ∉ ([".ai", ".eps", ".pdf", ".svg"] : List String) then
    none
  else
    match scan with
    | Except.error _ => none
    | Except.ok m =>
      let found : ColorsFound := {
        pantone := pantone_stage m.gsPantone m.textPantone
        cmyk := cmyk_stage m.cmyk
        rgb := rgb_stage m.rgb
        grayscale := gray_stage m.whiteSwatch m.gray
        spot_other := spot_stage m.separation }
      if found.pantone = [] ∧ found.cmyk = [] ∧ found.rgb = [] ∧
          found.grayscale = [] ∧ found.spot_other = [] then none
      else some found

/-! ### Color math (src/app_with_embroidery.py lines 269-290) -/

/-- The value k = min(c, m, y) computed at line 281 of rgb_to_cmyk. -/
def cmyk_k (r g b : ℕ) : ℚ :=
  min (1 - (r : ℚ) / 255) (min (1 - (g : ℚ) / 255) (1 - (b : ℚ) / 255))

/-- PreviewGenerator.rgb_to_cmyk (lines 269-290), returning (c, m, y, k)
percentages. Black is short-circuited; k = 1 is guarded before the division
by 1 - k; each channel is rounded by Python round(). -/
def rgb_to_cmyk (r g b : ℕ) : ℤ × ℤ × ℤ × ℤ :=
  if r = 0 ∧ g = 0 ∧ b = 0 then (0, 0, 0, 100)
  else
    let c : ℚ := 1 - (r : ℚ) / 255
    let m : ℚ := 1 - (g : ℚ) / 255
    let y : ℚ := 1 - (b : ℚ) / 255
    let k : ℚ := cmyk_k r g b
    if k = 1 then (0, 0, 0, 100)
    else (pyRound ((c - k) / (1 - k) * 100), pyRound ((m - k) / (1 - k) * 100),
          pyRound ((y - k) / (1 - k) * 100), pyRound (k * 100))

/-! ### Post-processor background (lines 604-632; identical logic at
src/app_streamlit.py lines 111-139) -/

/-- PreviewGenerator.detect_brightness (lines 604-608): the mean of the
grayscale pixel values; the PIL conversion to mode L is external, so the
image is represented by its grayscale pixel list. -/
def detect_brightness (grayPixels : List ℕ) : ℚ :=
  ((grayPixels.sum : ℚ)) / (grayPixels.length : ℚ)

/-- Outcome of add_background: either the RGBA image itself (transparent
mode) or the image composited over a solid background color. -/
inductive BgResult where
  | keptTransparent : BgResult
  | composited : ℕ × ℕ × ℕ → BgResult
deriving DecidableEq

/-- The bg_colors dictionary lookup with default light (lines 619-624). -/
def bg_colors (t : String) : ℕ × ℕ × ℕ :=
  if t = "dark" then (45, 45, 48) else (240, 240, 240)

/-- PreviewGenerator.add_background (lines 610-632): auto resolves to dark
when the measured brightness exceeds 200 and light otherwise, before any
compositing; transparent keeps the image; other modes composite over the
looked-up background color. -/
def add_background (grayPixels : List ℕ) (bg_type : String) : BgResult :=
  let t := if bg_type = "auto" then
      (if detect_brightness grayPixels > 200 then "dark" else "light")
    else bg_type
  if t = "transparent" then BgResult.keptTransparent
  else BgResult.composited (bg_colors t)

/-! ### Embroidery renderer (src/app_with_embroidery.py lines 57-154) -/

/-- The pyembroidery stitch record: coordinates in machine units and the
control flags word (s[2], defaulting to 0 when absent, line 118). -/
structure Stitch where
  x : ℚ
  y : ℚ
  flags : ℕ
deriving DecidableEq

/-- Modelled from the spec: the flag constants TRIM, COLOR_CHANGE and JUMP of
the external pyembroidery library (not under src/); the spec says only that
flags mark trim, color-change and jump events, so the constants are kept
abstract as a parameter record. -/
structure EmbFlags where
  trim : ℕ
  color_change : ℕ
  jump : ℕ
deriving DecidableEq

/-- Result payload of a successful EmbroideryConverter.convert_to_png: the
info dictionary of lines 146-151, extended with the internally computed
scale, offsets and drawn segments so that theorems can speak about them. -/
structure EmbOut where
  scale : ℚ
  offset_x : ℚ
  offset_y : ℚ
  segments : List ((ℚ × ℚ) × (ℚ × ℚ))
  stitch_count : ℕ
  thread_changes : ℕ
  width_mm : ℚ
  height_mm : ℚ
deriving DecidableEq

/-- The stitch-drawing loop of convert_to_png (lines 113-137): walk stitches
keeping the previous pen position; trim or color-change clears it; a segment
is drawn when a previous position exists and the stitch is not a jump. -/
def draw_stitches (fl : EmbFlags) (offset_x offset_y scale min_x min_y : ℚ)
    (stitches : List Stitch) : List ((ℚ × ℚ) × (ℚ × ℚ)) :=
  (stitches.foldl
    (fun (st : Option (ℚ × ℚ) × List ((ℚ × ℚ) × (ℚ × ℚ))) s =>
      let screen_x := offset_x + (s.x - min_x) * scale
      let screen_y := offset_y + (s.y - min_y) * scale
      let prev := if s.flags &&& fl.trim ≠ 0 ∨ s.flags &&& fl.color_change ≠ 0 then none
        else st.1
      let segs := match prev with
        | some p => if s.flags &&& fl.jump ≠ 0 then st.2 else st.2 ++ [(p, (screen_x, screen_y))]
        | none => st.2
      (some (screen_x, screen_y), segs))
    (none, [])).2

/-- Core of EmbroideryConverter.convert_to_png (lines 88-151) after the
pattern bounds are known: the zero-dimension guard precedes the scale
computation, so the divisions by pattern_width and pattern_height are only
reached when both are nonzero. -/
def convert_core (fl : EmbFlags) (min_x min_y max_x max_y : ℚ) (stitches : List Stitch)
    (width height : ℚ) : Except String EmbOut :=
  let pattern_width := max_x - min_x
  let pattern_height := max_y - min_y
  if pattern_width = 0 ∨ pattern_height = 0 then
    Except.error "Pattern has zero dimensions"
  else
    let margin : ℚ := 50
    let scale_x := (width - 2 * margin) / pattern_width
    let scale_y := (height - 2 * margin) / pattern_height
    let scale := min scale_x scale_y
    let offset_x := margin + (width - 2 * margin - pattern_width * scale) / 2
    let offset_y := margin + (height - 2 * margin - pattern_height * scale) / 2
    Except.ok {
      scale := scale
      offset_x := offset_x
      offset_y := offset_y
      segments := draw_stitches fl offset_x offset_y scale min_x min_y stitches
      stitch_count := stitches.length
      thread_changes := (stitches.filter (fun s => s.flags &&& fl.color_change != 0)).length
      width_mm := round2 (pattern_width / 10)
      height_mm := round2 (pattern_height / 10) }

/-- EmbroideryConverter.convert_to_png (lines 75-154): the pattern bounds come
from the external pyembroidery pattern.bounds() call and are an input; absent
bounds fail (line 90-91), then convert_core runs. -/
def convert_to_png (fl : EmbFlags) (bounds : Option (ℚ × ℚ × ℚ × ℚ))
    (stitches : List Stitch) (width height : ℚ) : Except String EmbOut :=
  match bounds with
  | none => Except.error "Could not determine pattern bounds"
  | some (min_x, min_y, max_x, max_y) =>
    convert_core fl min_x min_y max_x max_y stitches width height

/-! ### ImageMagick conversion wrapper (src/app_with_embroidery.py lines 205-267) -/

/-- Observable outcome of one subprocess.run of the convert tool: its return
code and the state of the output file afterwards (none when the file does
not exist, otherwise its byte size). -/
structure RunOutcome where
  returncode : ℤ
  outSize : Option ℕ
deriving DecidableEq

/-- The primary convert command built per extension (lines 211-235). -/
def im_primary_cmd (ext : String) (dpi : ℕ) (input output : String) : List String :=
  if ext = ".xcf" then ["convert", "-flatten", "-density", toString dpi, input, output]
  else if ext = ".cdr" then ["convert", "-density", toString dpi, input, "-flatten", output]
  else if ext = ".svg" then
    ["convert", "-background", "none", "-density", toString dpi, input, output]
  else if ext = ".eps" ∨ ext = ".ai" then
    ["convert", "-density", toString dpi, input, "-flatten", output]
  else ["convert", "-density", toString dpi, "-background", "none",
    input ++ "[0]", "-flatten", output]

/-- The alternate EPS/AI command with an explicit opaque white background
(lines 243-250). -/
def im_retry_cmd (dpi : ℕ) (input output : String) : List String :=
  ["convert", "-density", toString dpi, "-background", "white", "-flatten", input, output]

/-- The success check at line 259: the output file exists with nonzero size. -/
def file_ok : Option ℕ → Bool
  | none => false
  | some n => decide (0 < n)

/-- PreviewGenerator._convert_with_imagemagick (lines 205-267). The
subprocess is the oracle run; the returned trace lists every command
invoked, in order. A nonzero return code of the primary command triggers the
alternate EPS/AI command once; any other failure path returns false without
another invocation. -/
def convert_with_imagemagick (run : List String → RunOutcome) (ext : String) (dpi : ℕ)
    (input output : String) : Bool × List (List String) :=
  let cmd := im_primary_cmd ext dpi input output
  let r1 := run cmd
  if r1.returncode ≠ 0 then
    if ext = ".eps" ∨ ext = ".ai" then
      let cmd2 := im_retry_cmd dpi input output
      let r2 := run cmd2
      if r2.returncode ≠ 0 then (false, [cmd, cmd2])
      else (file_ok r2.outSize, [cmd, cmd2])
    else (false, [cmd])
  else (file_ok r1.outSize, [cmd])

/-! ### Preview pipeline (src/app_with_embroidery.py lines 594-867) -/

/-- A raster image as the pipeline observes it: pixel dimensions plus the
grayscale pixel data used for brightness measurement. -/
structure RasterImg where
  width : ℕ
  height : ℕ
  gray : List ℕ
deriving DecidableEq

/-- PreviewGenerator.calculate_physical_size (lines 594-602):
(width inches, height inches, dpi), each rounded to two decimals. -/
def calculate_physical_size (width_px height_px dpi : ℕ) : ℚ × ℚ × ℕ :=
  (round2 ((width_px : ℚ) / (dpi : ℚ)), round2 ((height_px : ℚ) / (dpi : ℚ)), dpi)

/-- The result dictionary of generate_preview (lines 743-761) and of
_generate_embroidery_preview (lines 854-863). Fields tied to temporary file
paths (path, size_kb, pdf_path) are reduced to the has_pdf flag, the only
part of them the code itself decides. -/
structure PreviewResult where
  file_type : String
  width : ℕ
  height : ℕ
  brightness : ℚ
  physical_size : Option (ℚ × ℚ × ℕ)
  vector_colors : Option ColorsFound
  sampled_colors : Option (List (ℕ × ℕ × ℕ))
  embroidery_info : Option EmbOut
  has_pdf : Bool
deriving DecidableEq

/-- PreviewGenerator._generate_embroidery_preview (lines 827-867): a failed
conversion returns none; otherwise the preview keeps the default 1200 x 800
canvas of convert_to_png, records the embroidery info and carries no vector
color data. The rendered canvas pixels are external input embGray. -/
def generate_embroidery_preview (fl : EmbFlags) (bounds : Option (ℚ × ℚ × ℚ × ℚ))
    (stitches : List Stitch) (embGray : List ℕ) : Option PreviewResult :=
  match convert_to_png fl bounds stitches 1200 800 with
  | Except.error _ => none
  | Except.ok info =>
    some {
      file_type := "embroidery"
      width := 1200
      height := 800
      brightness := detect_brightness embGray
      physical_size := none
      vector_colors := none
      sampled_colors := none
      embroidery_info := some info
      has_pdf := false }

/-- PreviewGenerator.generate_preview (lines 675-765). Embroidery files
dispatch to the embroidery preview. For vector files: colors are extracted
from the original file; a failed conversion chain (converted = none) aborts;
sampled colors are only used when no vector colors were found (line 718);
the image is downscaled to fit 1200 x 1200 (lines 721-728, the external
LANCZOS resampler supplies the new pixel data); brightness is measured after
the resize and before background compositing (line 730); background and
watermark do not change the dimensions. -/
def generate_preview (resample : RasterImg → ℕ → ℕ → List ℕ) (filename : String)
    (scan : Except String ScanMatches) (converted : Option RasterImg)
    (sampled : Option (List (ℕ × ℕ × ℕ))) (pdfOk : Bool) (fl : EmbFlags)
    (bounds : Option (ℚ × ℚ × ℚ × ℚ)) (stitches : List Stitch) (embGray : List ℕ)
    (dpi : ℕ) : Option PreviewResult :=
  if is_embroidery_file filename then
    generate_embroidery_preview fl bounds stitches embGray
  else
    let vector_colors := extract_vector_colors filename scan
    match converted with
    | none => none
    | some img =>
      let sampled_colors := if vector_colors = none then sampled else none
      let width_scale := (1200 : ℚ) / (img.width : ℚ)
      let height_scale := (1200 : ℚ) / (img.height : ℚ)
      let scale := min (min width_scale height_scale) 1
      let img2 := if scale < 1 then
          RasterImg.mk (pyInt ((img.width : ℚ) * scale)).toNat
            (pyInt ((img.height : ℚ) * scale)).toNat
            (resample img (pyInt ((img.width : ℚ) * scale)).toNat
              (pyInt ((img.height : ℚ) * scale)).toNat)
        else img
      some {
        file_type := "vector"
        width := img2.width
        height := img2.height
        brightness := detect_brightness img2.gray
        physical_size := some (calculate_physical_size img2.width img2.height dpi)
        vector_colors := vector_colors
        sampled_colors := sampled_colors
        embroidery_info := none
        has_pdf := pdfOk }

/-! ### Claims -/

/-- C1: for every pair of Pantone match lists (Ghostscript and textual), the
pantone list is sorted alphabetically and de-duplicated, every entry is a
canonical PANTONE name built from some match, a non-empty Ghostscript result
is used instead of the textual scan (the output does not depend on the
textual matches), and two textual encodings of PANTONE 293 U collapse to the
single canonical entry. -/
theorem claim_c1_pantone_canonical_dedup_sorted :
    ∀ gsM textM : List (String × String),
      List.Sorted pyStrLe (pantone_stage gsM textM) ∧
      (pantone_stage gsM textM).Nodup ∧
      (∀ s ∈ pantone_stage gsM textM, ∃ p, (p ∈ gsM ∨ p ∈ textM) ∧
        s = pantone_name p.1 p.2) ∧
      (gs_spot_colors gsM ≠ [] → ∀ textM2, pantone_stage gsM textM = pantone_stage gsM textM2) ∧
      pantone_stage [] [("293", "U"), ("293", "u")] = ["PANTONE 293 U"] := by
  intro gsM textM
  refine ⟨?_, ?_, ?_, ?_, by decide⟩
  · simp only [pantone_stage]
    split_ifs <;> exact List.sorted_insertionSort _ _
  · simp only [pantone_stage]
    split_ifs
    · exact (List.perm_insertionSort _ _).nodup_iff.mpr (List.nodup_dedup _)
    · exact (List.perm_insertionSort _ _).nodup_iff.mpr (List.nodup_dedup _)
  · intro s hs
    simp only [pantone_stage] at hs
    split_ifs at hs
    · rw [(List.perm_insertionSort _ _).mem_iff, List.mem_dedup, List.mem_map] at hs
      obtain ⟨p, hp, rfl⟩ := hs
      exact ⟨p, Or.inr hp, rfl⟩
    · rw [(List.perm_insertionSort _ _).mem_iff] at hs
      simp only [gs_spot_colors, List.mem_dedup, List.mem_map] at hs
      obtain ⟨p, hp, rfl⟩ := hs
      exact ⟨p, Or.inl hp, rfl⟩
  · intro hgs textM2
    simp only [pantone_stage]
    rw [if_neg hgs, if_neg hgs]

/-- Witness for C1 at a concrete input: a non-empty Ghostscript result makes
the pantone list independent of the textual matches. -/
theorem claim_c1_witness :
    pantone_stage [("186", "C")] [("293", "U")] = pantone_stage [("186", "C")] [] :=
  (claim_c1_pantone_canonical_dedup_sorted [("186", "C")] [("293", "U")]).2.2.2.1
    (by decide) []

/-- C2: the fractional quadruple (0.5, 0.2, 0.8, 0.0) is scaled to
(50, 20, 80, 0); the already-scaled quadruple (50, 20, 80, 0) passes through
unchanged; the CMYK list is sorted ascending by the (k, c, m, y) key and has
at most 15 entries. -/
theorem claim_c2_cmyk_scaling_sort_cap :
    cmyk_normalize (1/2) (1/5) (4/5) 0 = (50, 20, 80, 0) ∧
    cmyk_normalize 50 20 80 0 = (50, 20, 80, 0) ∧
    (∀ ms, List.Sorted cmykLe (cmyk_stage ms)) ∧
    (∀ ms, (cmyk_stage ms).length ≤ 15) := by
  refine ⟨?_, ?_, ?_, ?_⟩
  · norm_num [cmyk_normalize, pyInt]
  · norm_num [cmyk_normalize, pyInt]
  · intro ms
    unfold cmyk_stage
    exact List.Pairwise.sublist (List.take_sublist _ _) (List.sorted_insertionSort _ _)
  · intro ms
    unfold cmyk_stage
    exact List.length_take_le _ _

/-- C10: the scaling decision of a CMYK quadruple is made from the first
(cyan) value alone and applied to all four channels, and likewise for an RGB
triple from the red value; a mixed tuple with first value 0.5 has every
channel scaled (by 100 or 255), and a first value above 1.0 truncates every
channel unchanged. -/
theorem claim_c10_first_channel_heuristic :
    (∀ c m y k : ℚ, c ≤ 1 → cmyk_normalize c m y k =
      (pyInt (c * 100), pyInt (m * 100), pyInt (y * 100), pyInt (k * 100))) ∧
    (∀ c m y k : ℚ, 1 < c → cmyk_normalize c m y k = (pyInt c, pyInt m, pyInt y, pyInt k)) ∧
    (∀ r g b : ℚ, r ≤ 1 → rgb_normalize r g b =
      (pyInt (r * 255), pyInt (g * 255), pyInt (b * 255))) ∧
    (∀ r g b : ℚ, 1 < r → rgb_normalize r g b = (pyInt r, pyInt g, pyInt b)) ∧
    cmyk_normalize (1/2) 20 80 0 = (50, 2000, 8000, 0) ∧
    rgb_normalize (1/2) 20 80 = (127, 5100, 20400) := by
  refine ⟨?_, ?_, ?_, ?_, ?_, ?_⟩
  · intro c m y k hc; simp [cmyk_normalize, hc]
  · intro c m y k hc; simp [cmyk_normalize, not_le.mpr hc]
  · intro r g b hr; simp [rgb_normalize, hr]
  · intro r g b hr; simp [rgb_normalize, not_le.mpr hr]
  · norm_num [cmyk_normalize, pyInt]
  · norm_num [rgb_normalize, pyInt]

/-- Witness for C10 at a concrete input: the all-channel scaling branch fires
for first channel one half. -/
theorem claim_c10_witness :
    cmyk_normalize (1/2) 20 80 0 =
      (pyInt ((1/2 : ℚ) * 100), pyInt ((20 : ℚ) * 100), pyInt ((80 : ℚ) * 100),
        pyInt ((0 : ℚ) * 100)) :=
  claim_c10_first_channel_heuristic.1 (1/2) 20 80 0 (by norm_num)

/-- C5: is_supported is true exactly when the lowercased suffix lies in the
declared vector or embroidery extension sets; case does not matter, so a
file with suffix .SVG is treated like .svg. -/
theorem claim_c5_supported_iff_suffix :
    (∀ fn : String, is_supported fn = true ↔
      (pyLower (pathSuffixOf fn) ∈
          ([".ai", ".eps", ".pdf", ".svg", ".cdr", ".xcf"] : List String) ∨
        pyLower (pathSuffixOf fn) ∈
          ([".dst", ".pes", ".exp", ".jef", ".vp3", ".xxx", ".u01"] : List String))) ∧
    is_supported "logo.SVG" = true ∧ is_supported "logo.svg" = true ∧
    is_supported "stitch.DST" = true ∧ is_supported "photo.jpg" = false := by
  refine ⟨?_, by decide, by decide, by decide, by decide⟩
  intro fn
  simp [is_supported, is_embroidery_file, SUPPORTED_FORMATS, EMBROIDERY_FORMATS]

/-- Witness for C5 at a concrete input: an upper-case suffix is accepted
through the lowercased membership test. -/
theorem claim_c5_witness : is_supported "x.SVG" = true :=
  (claim_c5_supported_iff_suffix.1 "x.SVG").mpr (Or.inl (by decide))

/-- C6: background mode auto selects the dark background exactly when the
pre-composite brightness exceeds 200 and the light background otherwise;
brightness 210 gives dark, brightness 100 gives light, brightness exactly
200 gives light. -/
theorem claim_c6_auto_background_threshold :
    (∀ gray : List ℕ, add_background gray "auto" = BgResult.composited (45, 45, 48) ↔
      detect_brightness gray > 200) ∧
    (∀ gray : List ℕ, add_background gray "auto" = BgResult.composited (240, 240, 240) ↔
      ¬ detect_brightness gray > 200) ∧
    add_background [210] "auto" = BgResult.composited (45, 45, 48) ∧
    add_background [100] "auto" = BgResult.composited (240, 240, 240) ∧
    add_background [200] "auto" = BgResult.composited (240, 240, 240) := by
  refine ⟨?_, ?_, ?_, ?_, ?_⟩
  · intro gray
    by_cases hb : detect_brightness gray > 200 <;> simp [add_background, bg_colors, hb]
  · intro gray
    by_cases hb : detect_brightness gray > 200 <;> simp [add_background, bg_colors, hb]
  · norm_num [add_background, bg_colors, detect_brightness]
    decide
  · norm_num [add_background, bg_colors, detect_brightness]
    decide
  · norm_num [add_background, bg_colors, detect_brightness]
    decide

/-- Witness for C6 at a concrete input: a bright two-pixel image selects the
dark background. -/
theorem claim_c6_witness : add_background [255, 255] "auto" = BgResult.composited (45, 45, 48) :=
  (claim_c6_auto_background_threshold.1 [255, 255]).mpr (by norm_num [detect_brightness])

/-- C9: rgb_to_cmyk maps black to (0, 0, 0, 100) and white to (0, 0, 0, 0);
on every byte-range input other than black the computed k stays strictly
below 1, so the guarded division by 1 - k has a nonzero denominator and the
conversion is total. -/
theorem claim_c9_rgb_to_cmyk_endpoints_total :
    rgb_to_cmyk 0 0 0 = (0, 0, 0, 100) ∧
    rgb_to_cmyk 255 255 255 = (0, 0, 0, 0) ∧
    (∀ r g b : ℕ, r ≤ 255 → g ≤ 255 → b ≤ 255 → ¬(r = 0 ∧ g = 0 ∧ b = 0) →
      cmyk_k r g b < 1 ∧ 1 - cmyk_k r g b ≠ 0) := by
  refine ⟨by norm_num [rgb_to_cmyk], ?_, ?_⟩
  · norm_num [rgb_to_cmyk, cmyk_k, pyRound]
  · intro r g b hr hg hb hneq
    have h1 : 1 ≤ r ∨ 1 ≤ g ∨ 1 ≤ b := by omega
    have hk : cmyk_k r g b < 1 := by
      unfold cmyk_k
      rcases h1 with h | h | h
      · have h2 : (1 : ℚ) / 255 ≤ (r : ℚ) / 255 := by
          gcongr
          exact_mod_cast h
        calc min (1 - (r : ℚ) / 255) (min (1 - (g : ℚ) / 255) (1 - (b : ℚ) / 255)) ≤
            1 - (r : ℚ) / 255 := min_le_left _ _
          _ < 1 := by linarith
      · have h2 : (1 : ℚ) / 255 ≤ (g : ℚ) / 255 := by
          gcongr
          exact_mod_cast h
        calc min (1 - (r : ℚ) / 255) (min (1 - (g : ℚ) / 255) (1 - (b : ℚ) / 255)) ≤
            min (1 - (g : ℚ) / 255) (1 - (b : ℚ) / 255) := min_le_right _ _
          _ ≤ 1 - (g : ℚ) / 255 := min_le_left _ _
          _ < 1 := by linarith
      · have h2 : (1 : ℚ) / 255 ≤ (b : ℚ) / 255 := by
          gcongr
          exact_mod_cast h
        calc min (1 - (r : ℚ) / 255) (min (1 - (g : ℚ) / 255) (1 - (b : ℚ) / 255)) ≤
            min (1 - (g : ℚ) / 255) (1 - (b : ℚ) / 255) := min_le_right _ _
          _ ≤ 1 - (b : ℚ) / 255 := min_le_right _ _
          _ < 1 := by linarith
    refine ⟨hk, ?_⟩
    intro h0
    rw [sub_eq_zero] at h0
    exact absurd h0.symm (ne_of_lt hk)

/-- Witness for C9 at a concrete input: pure red keeps k strictly below 1. -/
theorem claim_c9_witness : cmyk_k 255 0 0 < 1 ∧ 1 - cmyk_k 255 0 0 ≠ 0 :=
  claim_c9_rgb_to_cmyk_endpoints_total.2.2 255 0 0 (by omega) (by omega) (by omega) (by omega)

/-- C3: a stitch pattern whose bounding box has zero width or zero height
makes convert_to_png fail with the degenerate-pattern error before any
division is reached; conversely a successful conversion implies both
dimensions are nonzero and its scale is exactly
min((width - 2 * 50) / pattern_width, (height - 2 * 50) / pattern_height),
so the divisions are only computed with nonzero denominators. -/
theorem claim_c3_degenerate_pattern_guard :
    ∀ (fl : EmbFlags) (bounds : Option (ℚ × ℚ × ℚ × ℚ)) (stitches : List Stitch) (w h : ℚ),
      (∀ min_x min_y max_x max_y, bounds = some (min_x, min_y, max_x, max_y) →
        (max_x - min_x = 0 ∨ max_y - min_y = 0) →
        convert_to_png fl bounds stitches w h = Except.error "Pattern has zero dimensions") ∧
      (∀ out, convert_to_png fl bounds stitches w h = Except.ok out →
        ∃ min_x min_y max_x max_y, bounds = some (min_x, min_y, max_x, max_y) ∧
          max_x - min_x ≠ 0 ∧ max_y - min_y ≠ 0 ∧
          out.scale = min ((w - 2 * 50) / (max_x - min_x)) ((h - 2 * 50) / (max_y - min_y))) := by
  intro fl bounds stitches w h
  constructor
  · rintro min_x min_y max_x max_y rfl hdeg
    simp only [convert_to_png, convert_core]
    rw [if_pos hdeg]
  · intro out hout
    cases bounds with
    | none => exact absurd hout (by simp [convert_to_png])
    | some b =>
      obtain ⟨min_x, min_y, max_x, max_y⟩ := b
      simp only [convert_to_png, convert_core] at hout
      split_ifs at hout with hdeg
      rw [Except.ok.injEq] at hout
      rw [not_or] at hdeg
      exact ⟨min_x, min_y, max_x, max_y, rfl, hdeg.1, hdeg.2, by rw [← hout]⟩

/-- Witness for C3 at a concrete input: identical min and max x yield the
degenerate-pattern failure. -/
theorem claim_c3_witness :
    convert_to_png ⟨2, 5, 1⟩ (some (3, 0, 3, 9)) [] 1200 800 =
      Except.error "Pattern has zero dimensions" :=
  (claim_c3_degenerate_pattern_guard ⟨2, 5, 1⟩ (some (3, 0, 3, 9)) [] 1200 800).1 3 0 3 9 rfl
    (Or.inl (by norm_num))

/-- C4 counterexample: an EPS whose primary ImageMagick invocation exits with
return code 0 but leaves a zero-byte output file is reported as failure after
that single invocation; the white-background retry command is never run, so
the claimed retry on a zero-byte result does not happen. -/
theorem claim_c4_counterexample :
    convert_with_imagemagick (fun _ => ⟨0, some 0⟩) ".eps" 300 "art.eps" "out.png" =
      (false, [im_primary_cmd ".eps" 300 "art.eps" "out.png"]) ∧
    im_retry_cmd 300 "art.eps" "out.png" ∉
      (convert_with_imagemagick (fun _ => ⟨0, some 0⟩) ".eps" 300 "art.eps" "out.png").2 := by
  refine ⟨by decide, by decide⟩

/-- C4 (amended): for EPS/AI inputs the retry with an explicit opaque white
background happens exactly once when the primary invocation exits with a
nonzero return code (and failure is reported if the retry also exits
nonzero); a primary invocation that exits zero ends the conversion after one
invocation, its zero-byte output reported as failure without any retry. -/
theorem claim_c4_retry_on_nonzero_exit :
    ∀ (run : List String → RunOutcome) (ext : String) (dpi : ℕ) (input output : String),
      ((run (im_primary_cmd ext dpi input output)).returncode ≠ 0 →
        (ext = ".eps" ∨ ext = ".ai") →
        (convert_with_imagemagick run ext dpi input output).2 =
          [im_primary_cmd ext dpi input output, im_retry_cmd dpi input output] ∧
        ((run (im_retry_cmd dpi input output)).returncode ≠ 0 →
          (convert_with_imagemagick run ext dpi input output).1 = false) ∧
        ((run (im_retry_cmd dpi input output)).returncode = 0 →
          (convert_with_imagemagick run ext dpi input output).1 =
            file_ok (run (im_retry_cmd dpi input output)).outSize)) ∧
      ((run (im_primary_cmd ext dpi input output)).returncode = 0 →
        convert_with_imagemagick run ext dpi input output =
          (file_ok (run (im_primary_cmd ext dpi input output)).outSize,
            [im_primary_cmd ext dpi input output])) := by
  intro run ext dpi input output
  constructor
  · intro h1 hext
    simp only [convert_with_imagemagick]
    rw [if_pos h1, if_pos hext]
    refine ⟨by split_ifs <;> rfl, ?_, ?_⟩
    · intro h2; rw [if_pos h2]
    · intro h2; rw [if_neg (by simp [h2])]
  · intro h1
    simp only [convert_with_imagemagick]
    rw [if_neg (by simp [h1])]

/-- Witness for C4 at a concrete input: a nonzero primary exit on an AI file
runs the white-background retry as the second and last invocation. -/
theorem claim_c4_witness :
    (convert_with_imagemagick (fun _ => ⟨1, none⟩) ".ai" 300 "a.ai" "o.png").2 =
      [im_primary_cmd ".ai" 300 "a.ai" "o.png", im_retry_cmd 300 "a.ai" "o.png"] :=
  ((claim_c4_retry_on_nonzero_exit (fun _ => ⟨1, none⟩) ".ai" 300 "a.ai" "o.png").1
    (by decide) (Or.inr rfl)).1

/-- C7: the color extractor returns none, never an empty colors_found, when
every one of the five lists is empty; and a failed file read or unexpected
scan exception (the error case of the scan input) yields the same none
instead of propagating, so color extraction cannot abort the pipeline. -/
theorem claim_c7_extractor_absence_not_empty :
    (∀ fp msg, extract_vector_colors fp (Except.error msg) = none) ∧
    (∀ fp scan cf, extract_vector_colors fp scan = some cf →
      cf.pantone ≠ [] ∨ cf.cmyk ≠ [] ∨ cf.rgb ≠ [] ∨ cf.grayscale ≠ [] ∨
        cf.spot_other ≠ []) := by
  constructor
  · intro fp msg
    simp only [extract_vector_colors]
    split_ifs <;> rfl
  · intro fp scan cf h
    cases scan with
    | error m =>
      simp only [extract_vector_colors] at h
      split_ifs at h
    | ok m =>
      simp only [extract_vector_colors] at h
      split_ifs at h with hext hempty
      rw [Option.some.injEq] at h
      subst h
      tauto

/-- The colors_found value reached in the C7 witness. -/
def claim_c7_example : ColorsFound :=
  { pantone := ["PANTONE 293 U"], cmyk := [], rgb := [], grayscale := [], spot_other := [] }

/-- Witness for C7 at concrete inputs: a scan error on a supported extension
gives none, and a scan that only matched one textual Pantone reference gives
a result whose lists are not all empty. -/
theorem claim_c7_witness :
    extract_vector_colors "a.ai" (Except.error "boom") = none ∧
    (claim_c7_example.pantone ≠ [] ∨ claim_c7_example.cmyk ≠ [] ∨ claim_c7_example.rgb ≠ [] ∨
      claim_c7_example.grayscale ≠ [] ∨ claim_c7_example.spot_other ≠ []) :=
  ⟨claim_c7_extractor_absence_not_empty.1 "a.ai" "boom",
    claim_c7_extractor_absence_not_empty.2 "a.eps"
      (Except.ok ⟨[], [("293", "U")], [], false, [], [], []⟩) claim_c7_example (by decide)⟩

/-- C8: every successfully constructed preview result is shaped by its
file_type tag: an embroidery result carries no vector color data (neither
extracted nor sampled), and a vector result carries no stitch statistics. -/
theorem claim_c8_result_shape :
    ∀ resample filename scan converted sampled pdfOk fl bounds stitches embGray dpi r,
      generate_preview resample filename scan converted sampled pdfOk fl bounds stitches
          embGray dpi = some r →
        (r.file_type = "embroidery" → r.vector_colors = none ∧ r.sampled_colors = none) ∧
        (r.file_type = "vector" → r.embroidery_info = none) := by
  intro resample filename scan converted sampled pdfOk fl bounds stitches embGray dpi r h
  by_cases hemb : is_embroidery_file filename = true
  · simp only [generate_preview, hemb, if_true] at h
    simp only [generate_embroidery_preview] at h
    cases hconv : convert_to_png fl bounds stitches 1200 800 with
    | error e => rw [hconv] at h; simp at h
    | ok info =>
      rw [hconv] at h
      rw [Option.some.injEq] at h
      subst h
      exact ⟨fun _ => ⟨rfl, rfl⟩, fun hft => absurd hft (by simp)⟩
  · cases converted with
    | none => simp [generate_preview, hemb] at h
    | some img =>
      simp only [generate_preview, hemb, Bool.false_eq_true, if_false] at h
      rw [Option.some.injEq] at h
      subst h
      exact ⟨fun hft => absurd hft (by simp), fun _ => rfl⟩

/-- The embroidery info reached in the C8 witness run. -/
def claim_c8_example_info : EmbOut :=
  { scale := 70, offset_x := 250, offset_y := 50, segments := [], stitch_count := 0,
    thread_changes := 0, width_mm := 1, height_mm := 1 }

/-- The preview result reached in the C8 witness run. -/
def claim_c8_example : PreviewResult :=
  { file_type := "embroidery", width := 1200, height := 800, brightness := 0,
    physical_size := none, vector_colors := none, sampled_colors := none,
    embroidery_info := some claim_c8_example_info, has_pdf := false }

/-- Witness for C8 at a concrete input: a successful embroidery run carries
no vector color data. -/
theorem claim_c8_witness :
    claim_c8_example.vector_colors = none ∧ claim_c8_example.sampled_colors = none := by
  have h1 : convert_to_png ⟨2, 5, 1⟩ (some (0, 0, 10, 10)) [] 1200 800 =
      Except.ok claim_c8_example_info := by
    simp only [convert_to_png, convert_core, draw_stitches, claim_c8_example_info]
    norm_num [round2, pyRound, min_def, List.foldl_nil]
  have h2 : generate_preview (fun _ _ _ => []) "a.dst" (Except.error "x") none none false
      ⟨2, 5, 1⟩ (some (0, 0, 10, 10)) [] [0] 300 = some claim_c8_example := by
    simp only [generate_preview, show is_embroidery_file "a.dst" = true from by decide, if_true,
      generate_embroidery_preview, h1, claim_c8_example]
    norm_num [detect_brightness]
  exact (claim_c8_result_shape (fun _ _ _ => []) "a.dst" (Except.error "x") none none false
    ⟨2, 5, 1⟩ (some (0, 0, 10, 10)) [] [0] 300 claim_c8_example h2).1 rfl
